import Mathlib

/-
Verification of the camera-route planner and capture pipeline of
`predict.py` (cog-earthshot).

The numeric computations of the source are embedded over `ℚ`:
Python's `round(v, 1)` (round-half-to-even to one decimal) is modelled by
`round1`, Python's float `%` (result carries the sign of the divisor) by
`fmod360`.  URL string assembly (`build_earth_url_with_search`) formats the
numeric camera parameters with fixed precision; the embedding keeps the
numeric parameters as a record (`UrlParts`) and abstracts the decimal
string formatting.
-/

namespace Earthshot

/-- Round-half-to-even to the nearest integer, as Python's builtin `round`. -/
def roundHalfEven (q : ℚ) : ℤ :=
  if q - ⌊q⌋ < 1/2 then ⌊q⌋
  else if 1/2 < q - ⌊q⌋ then ⌊q⌋ + 1
  else if ⌊q⌋ % 2 = 0 then ⌊q⌋ else ⌊q⌋ + 1

/-- Python `round(q, 1)`: round to one decimal place, ties to even. -/
def round1 (q : ℚ) : ℚ := (roundHalfEven (10 * q) : ℚ) / 10

/-- Python float `q % 360.0`: the representative of `q` modulo 360 lying in
`[0, 360)` (for a positive divisor the result carries the divisor's sign). -/
def fmod360 (q : ℚ) : ℚ := q - 360 * (⌊q / 360⌋ : ℚ)

/-- Source `ease_in_out_quad` (predict.py line 79): smooth easing 0..1 -> 0..1,
`2 * x * x if x < 0.5 else 1 - ((-2 * x + 2) ** 2) / 2`. -/
def ease_in_out_quad (x : ℚ) : ℚ :=
  if x < 1/2 then 2 * x * x else 1 - ((-2 * x + 2) ^ 2) / 2

/-- Source `clamp` (predict.py line 84): `max(lo, min(hi, v))`. -/
def clamp (v lo hi : ℚ) : ℚ := max lo (min hi v)

/-- Local `max_d` of `make_drone_route` (line 112): `clamp(max_distance, 1.0, 195.0)`. -/
def max_d_of (max_distance : ℚ) : ℚ := clamp max_distance 1 195

/-- Local `near_d` of `make_drone_route` (line 113):
`max(near_distance_min, max_d - 70.0)`. -/
def near_d_of (max_distance near_distance_min : ℚ) : ℚ :=
  max near_distance_min (max_d_of max_distance - 70)

/-- Specification-side formula for the hero-shot distance, following the
spec's words: `nearDistance = max(nearDistanceMin, maxDistance - 70.0)`,
to be compared with the source-side `near_d_of`. -/
def nearDistance_spec (maxDistance nearDistanceMin : ℚ) : ℚ :=
  max nearDistanceMin (maxDistance - 70)

/-- Local `N` of `make_drone_route` (line 111): `max(3, count)`. -/
def N_of (count : ℤ) : ℤ := max 3 count

/-- Local `orbit_steps` of `make_drone_route` (line 122): `N - 2`
(always positive since `N ≥ 3`; taken in `ℕ`). -/
def orbit_steps_of (count : ℤ) : ℕ := (N_of count - 2).toNat

/-- Local `step_sign` of `make_drone_route` (line 123):
`1.0 if clockwise else -1.0`. -/
def step_sign_of (clockwise : Bool) : ℚ := if clockwise then 1 else -1

/-- Local `heading_step` of `make_drone_route` (line 124):
`step_sign * (360.0 / orbit_steps)`. -/
def heading_step_of (clockwise : Bool) (count : ℤ) : ℚ :=
  step_sign_of clockwise * (360 / (orbit_steps_of count : ℚ))

/-- Source `dist_for_orbit_idx` (lines 126-129), with the captured `max_d`
and `near_d` passed explicitly:
`x = i / max(1, total - 1); round(max_d - (max_d - near_d) * ease_in_out_quad(x), 1)`. -/
def dist_for_orbit_idx (max_d near_d : ℚ) (i total : ℕ) : ℚ :=
  let x : ℚ := (i : ℚ) / ((max 1 (total - 1) : ℕ) : ℚ)
  round1 (max_d - (max_d - near_d) * ease_in_out_quad x)

/-- Numeric and label fields of one route row (`step, label, d, y, h, t, r`). -/
structure RowCore where
  step : ℤ
  label : String
  d : ℚ
  y : ℚ
  h : ℚ
  t : ℚ
  r : ℚ
  deriving DecidableEq, Repr, Inhabited

/-- Numeric parameters encoded by `build_earth_url_with_search` (lines 57-76);
the fixed-precision decimal string formatting is abstracted. -/
structure UrlParts where
  address : String
  lat : ℚ
  lon : ℚ
  a : ℚ
  d : ℚ
  y : ℚ
  h : ℚ
  t : ℚ
  r : ℚ
  deriving DecidableEq, Repr, Inhabited

/-- One route row with its attached URL (`row["url"]`, lines 178-189). -/
structure Row where
  core : RowCore
  url : UrlParts
  deriving DecidableEq, Repr, Inhabited

/-- Row 1 of the route, "Establishing" (lines 134-144). -/
def establishing_core (max_distance start_heading_deg : ℚ) : RowCore :=
  { step := 1
    label := "Establishing (far, lower tilt)"
    d := round1 (max_d_of max_distance)
    y := 35
    h := fmod360 start_heading_deg
    t := 55
    r := 0 }

/-- Orbit row `i` (0-based), appended as step `2 + i` (lines 147-162).
The FOV term is `fov_base + (((i % 2) * 2 - 1) * 3.0) if i % 2 else fov_base`. -/
def orbit_core (max_distance near_distance_min start_heading_deg : ℚ)
    (clockwise : Bool) (count : ℤ) (i : ℕ) : RowCore :=
  { step := 2 + (i : ℤ)
    label := "Orbit " ++ toString (i + 1) ++ "/" ++ toString (orbit_steps_of count)
    d := dist_for_orbit_idx (max_d_of max_distance)
      (near_d_of max_distance near_distance_min) i (orbit_steps_of count)
    y := if i % 2 = 0 then 35 else 35 + ((((i % 2 : ℕ) : ℚ) * 2 - 1) * 3)
    h := fmod360 (start_heading_deg + heading_step_of clockwise count * ((i : ℚ) + 1))
    t := 67
    r := 0 }

/-- Row `N` of the route, "Hero close-up" (lines 165-175). -/
def hero_core (max_distance near_distance_min start_heading_deg : ℚ)
    (clockwise : Bool) (count : ℤ) : RowCore :=
  { step := N_of count
    label := "Hero close-up"
    d := round1 (near_d_of max_distance near_distance_min)
    y := 35
    h := fmod360 (start_heading_deg +
      heading_step_of clockwise count * (orbit_steps_of count : ℚ))
    t := 72
    r := 0 }

/-- The ordered list of row cores: establishing, the orbit rows, hero. -/
def route_core (max_distance near_distance_min start_heading_deg : ℚ)
    (clockwise : Bool) (count : ℤ) : List RowCore :=
  establishing_core max_distance start_heading_deg ::
    (List.range (orbit_steps_of count)).map
      (orbit_core max_distance near_distance_min start_heading_deg clockwise count)
    ++ [hero_core max_distance near_distance_min start_heading_deg clockwise count]

/-- URL attached to a row (lines 178-189): the shared target altitude and the
row's own numeric fields. -/
def urlOf (address : String) (lat lon a_target : ℚ) (c : RowCore) : UrlParts :=
  { address := address, lat := lat, lon := lon, a := a_target
    d := c.d, y := c.y, h := c.h, t := c.t, r := c.r }

/-- Target altitude resolution (lines 107-108): `elev =
get_elevation_open_elevation(lat, lon) if use_elevation else None;
a_target = elev if elev is not None else default_alt`, with the (already
parsed) elevation-service response as the parameter `elev_response`. -/
def a_target_of (use_elevation : Bool) (elev_response : Option ℚ)
    (default_alt : ℚ) : ℚ :=
  let elev : Option ℚ := if use_elevation then elev_response else none
  elev.getD default_alt

/-- Source `make_drone_route` (lines 88-191).  The elevation lookup is an
external HTTP collaborator; its response is the parameter `elev_response`. -/
def make_drone_route (lat lon : ℚ) (address : String)
    (use_elevation : Bool) (elev_response : Option ℚ) (default_alt : ℚ)
    (max_distance near_distance_min start_heading_deg : ℚ)
    (clockwise : Bool) (count : ℤ) : List Row :=
  (route_core max_distance near_distance_min start_heading_deg clockwise count).map
    (fun c => { core := c
                url := urlOf address lat lon
                  (a_target_of use_elevation elev_response default_alt) c })

/-- Typed failure of the predict run. -/
inductive PredictError where
  | geocodingFailed : String → PredictError
  deriving DecidableEq, Repr

/-- Source `geocode_nominatim` (lines 29-41) on the parsed Nominatim
response list: an empty result list raises
`RuntimeError("Geocoding failed: no results from Nominatim.")`, otherwise the
first result's coordinates are returned. -/
def geocode_nominatim (results : List (ℚ × ℚ)) : Except PredictError (ℚ × ℚ) :=
  match results with
  | [] => Except.error (PredictError.geocodingFailed
      "Geocoding failed: no results from Nominatim.")
  | p :: _ => Except.ok p

/-- Route-planning prefix of `Predictor.predict` (lines 336-354): geocode
first; an error there propagates and no route is built; otherwise build the
route from the resolved coordinates. -/
def predict_plan (geocodeResults : List (ℚ × ℚ)) (address : String)
    (use_elevation : Bool) (elev_response : Option ℚ) (default_alt : ℚ)
    (max_distance near_distance_min start_heading_deg : ℚ)
    (clockwise : Bool) (count : ℤ) : Except PredictError (List Row) :=
  match geocode_nominatim geocodeResults with
  | Except.error e => Except.error e
  | Except.ok latlon =>
      Except.ok (make_drone_route latlon.1 latlon.2 address use_elevation
        elev_response default_alt max_distance near_distance_min
        start_heading_deg clockwise count)

/-- Python `f"{n:02d}"` for a nonnegative index. -/
def fmt02 (n : ℕ) : String := if n < 10 then "0" ++ toString n else toString n

/-- Screenshot file name of `_open_and_capture` (line 288):
`f"view_{index:02d}_full.png"`. -/
def view_full_path (index : ℕ) : String := "view_" ++ fmt02 index ++ "_full.png"

/-- Observable steps of the per-pose capture sequence. -/
inductive CaptureStep where
  | setWindowSize : ℤ → ℤ → CaptureStep
  | navigate : String → CaptureStep
  | dismissOverlay : CaptureStep
  | waitCanvasDetected : CaptureStep
  | waitCanvasTimeout : CaptureStep
  | settleWait : ℤ → CaptureStep
  | screenshot : String → CaptureStep
  deriving DecidableEq, Repr

/-- Source `Predictor._open_and_capture` (lines 239-292) as a trace of the
steps executed, plus the returned path.  The outcomes of the fallible
interactions are parameters: `overlay_dismiss_raises` (the ESCAPE send, whose
exception is swallowed, lines 256-260), `canvas_detected` (whether
`wait.until` found a canvas before its timeout; `TimeoutException` is caught,
lines 263-269).  Debug printing does not affect control flow.  There is no
early return: the screenshot is always taken (lines 287-292). -/
def open_and_capture (overlay_dismiss_raises canvas_detected : Bool)
    (url : String) (w h wait_seconds : ℤ) (index : ℕ) :
    List CaptureStep × String :=
  let trace1 : List CaptureStep :=
    [CaptureStep.setWindowSize w h, CaptureStep.navigate url]
  let trace2 : List CaptureStep :=
    trace1 ++ (if overlay_dismiss_raises then [] else [CaptureStep.dismissOverlay])
  let trace3 : List CaptureStep :=
    trace2 ++ [if canvas_detected then CaptureStep.waitCanvasDetected
               else CaptureStep.waitCanvasTimeout]
  let trace4 : List CaptureStep :=
    trace3 ++ (if 0 < wait_seconds then [CaptureStep.settleWait wait_seconds] else [])
  let path := view_full_path index
  (trace4 ++ [CaptureStep.screenshot path], path)

/-! ### Arithmetic helper lemmas -/

theorem roundHalfEven_le_of_le {q r : ℚ} (hqr : q ≤ r) :
    roundHalfEven q ≤ roundHalfEven r := by
  have hf : ⌊q⌋ ≤ ⌊r⌋ := Int.floor_mono hqr
  unfold roundHalfEven
  rcases lt_or_eq_of_le hf with hlt | heq
  · split_ifs <;> omega
  · rw [← heq]
    split_ifs <;> first | omega | (exfalso; linarith)

theorem round1_mono {q r : ℚ} (hqr : q ≤ r) : round1 q ≤ round1 r := by
  unfold round1
  have h1 : roundHalfEven (10 * q) ≤ roundHalfEven (10 * r) :=
    roundHalfEven_le_of_le (by linarith)
  have h2 : ((roundHalfEven (10 * q) : ℤ) : ℚ) ≤ (roundHalfEven (10 * r) : ℚ) := by
    exact_mod_cast h1
  linarith

theorem fmod360_nonneg (q : ℚ) : 0 ≤ fmod360 q := by
  unfold fmod360
  have h := Int.floor_le (q / 360)
  have h360 : (360 : ℚ) * (⌊q / 360⌋ : ℚ) ≤ 360 * (q / 360) := by linarith
  have : (360 : ℚ) * (q / 360) = q := by ring
  linarith

theorem fmod360_lt (q : ℚ) : fmod360 q < 360 := by
  unfold fmod360
  have h := Int.lt_floor_add_one (q / 360)
  have h360 : (360 : ℚ) * (q / 360) < 360 * ((⌊q / 360⌋ : ℚ) + 1) := by linarith
  have : (360 : ℚ) * (q / 360) = q := by ring
  linarith

theorem fmod360_add_mul_360 (q : ℚ) (n : ℤ) : fmod360 (q + 360 * n) = fmod360 q := by
  unfold fmod360
  have hdiv : (q + 360 * n) / 360 = q / 360 + n := by
    field_simp
    ring
  rw [hdiv, Int.floor_add_int]
  push_cast
  ring

theorem ease_in_out_quad_nonneg {x : ℚ} (h0 : 0 ≤ x) (h1 : x ≤ 1) :
    0 ≤ ease_in_out_quad x := by
  unfold ease_in_out_quad
  split_ifs with hx <;> nlinarith

theorem ease_in_out_quad_le_one {x : ℚ} (h0 : 0 ≤ x) (h1 : x ≤ 1) :
    ease_in_out_quad x ≤ 1 := by
  unfold ease_in_out_quad
  split_ifs with hx <;> nlinarith

theorem ease_in_out_quad_mono {a b : ℚ} (ha : 0 ≤ a) (hab : a ≤ b) (hb : b ≤ 1) :
    ease_in_out_quad a ≤ ease_in_out_quad b := by
  unfold ease_in_out_quad
  split_ifs with h1 h2 h2 <;> nlinarith

/-! ### Structural helper lemmas about the route -/

theorem three_le_N_of (count : ℤ) : 3 ≤ N_of count := le_max_left 3 count

theorem orbit_steps_of_pos (count : ℤ) : 0 < orbit_steps_of count := by
  have h := three_le_N_of count
  unfold orbit_steps_of
  omega

theorem N_of_eq_orbit_steps_add_two (count : ℤ) :
    N_of count = (orbit_steps_of count : ℤ) + 2 := by
  have h := three_le_N_of count
  unfold orbit_steps_of
  omega

theorem max_d_of_ge_one (max_distance : ℚ) : 1 ≤ max_d_of max_distance :=
  le_max_left 1 _

theorem max_d_of_le (max_distance : ℚ) : max_d_of max_distance ≤ 195 := by
  unfold max_d_of clamp
  have h : min 195 max_distance ≤ 195 := min_le_left _ _
  exact max_le (by norm_num) h

theorem make_drone_route_length (lat lon : ℚ) (address : String)
    (use_elevation : Bool) (elev_response : Option ℚ) (default_alt : ℚ)
    (max_distance near_distance_min start_heading_deg : ℚ)
    (clockwise : Bool) (count : ℤ) :
    (make_drone_route lat lon address use_elevation elev_response default_alt
      max_distance near_distance_min start_heading_deg clockwise count).length =
      orbit_steps_of count + 2 := by
  simp [make_drone_route, route_core]

theorem make_drone_route_getElem_zero (lat lon : ℚ) (address : String)
    (use_elevation : Bool) (elev_response : Option ℚ) (default_alt : ℚ)
    (max_distance near_distance_min start_heading_deg : ℚ)
    (clockwise : Bool) (count : ℤ) :
    (make_drone_route lat lon address use_elevation elev_response default_alt
      max_distance near_distance_min start_heading_deg clockwise count)[0]? =
      some { core := establishing_core max_distance start_heading_deg
             url := urlOf address lat lon
               (a_target_of use_elevation elev_response default_alt)
               (establishing_core max_distance start_heading_deg) } := by
  simp [make_drone_route, route_core]

theorem make_drone_route_getElem_orbit (lat lon : ℚ) (address : String)
    (use_elevation : Bool) (elev_response : Option ℚ) (default_alt : ℚ)
    (max_distance near_distance_min start_heading_deg : ℚ)
    (clockwise : Bool) (count : ℤ) {i : ℕ} (hi : i < orbit_steps_of count) :
    (make_drone_route lat lon address use_elevation elev_response default_alt
      max_distance near_distance_min start_heading_deg clockwise count)[i + 1]? =
      some { core := orbit_core max_distance near_distance_min start_heading_deg
               clockwise count i
             url := urlOf address lat lon
               (a_target_of use_elevation elev_response default_alt)
               (orbit_core max_distance near_distance_min start_heading_deg
                 clockwise count i) } := by
  unfold make_drone_route route_core
  rw [List.getElem?_map, List.getElem?_append_left (by simpa using hi),
    List.getElem?_cons_succ, List.getElem?_map, List.getElem?_range hi]
  rfl

theorem make_drone_route_getLast (lat lon : ℚ) (address : String)
    (use_elevation : Bool) (elev_response : Option ℚ) (default_alt : ℚ)
    (max_distance near_distance_min start_heading_deg : ℚ)
    (clockwise : Bool) (count : ℤ) :
    (make_drone_route lat lon address use_elevation elev_response default_alt
      max_distance near_distance_min start_heading_deg clockwise count).getLast? =
      some { core := hero_core max_distance near_distance_min start_heading_deg
               clockwise count
             url := urlOf address lat lon
               (a_target_of use_elevation elev_response default_alt)
               (hero_core max_distance near_distance_min start_heading_deg
                 clockwise count) } := by
  unfold make_drone_route route_core
  rw [List.map_append, List.map_singleton, List.getLast?_concat]

theorem round1_one : round1 (1 : ℚ) = 1 := by
  norm_num [round1, roundHalfEven]

theorem round1_195 : round1 (195 : ℚ) = 195 := by
  norm_num [round1, roundHalfEven]

/-- With a single orbit step the guarded divisor is 1, the normalized
progress is 0, the easing is 0, and the distance is the rounded `max_d`. -/
theorem dist_for_orbit_idx_zero_one (m n : ℚ) :
    dist_for_orbit_idx m n 0 1 = round1 m := by
  unfold dist_for_orbit_idx ease_in_out_quad
  norm_num

/-- Within the orbit phase the eased distances are monotone non-increasing
whenever the near target does not exceed the far start. -/
theorem dist_for_orbit_idx_step_le {m n : ℚ} (hnm : n ≤ m) {i total : ℕ}
    (hi : i + 1 < total) :
    dist_for_orbit_idx m n (i + 1) total ≤ dist_for_orbit_idx m n i total := by
  unfold dist_for_orbit_idx
  have hD : (max 1 (total - 1) : ℕ) = total - 1 :=
    max_eq_right (by omega)
  have hDpos : (0 : ℚ) < ((max 1 (total - 1) : ℕ) : ℚ) := by
    have : 0 < (max 1 (total - 1) : ℕ) := lt_of_lt_of_le Nat.one_pos (le_max_left _ _)
    exact_mod_cast this
  have hx0 : (0 : ℚ) ≤ (i : ℚ) / ((max 1 (total - 1) : ℕ) : ℚ) :=
    div_nonneg (by positivity) hDpos.le
  have hxle : (i : ℚ) / ((max 1 (total - 1) : ℕ) : ℚ) ≤
      ((i + 1 : ℕ) : ℚ) / ((max 1 (total - 1) : ℕ) : ℚ) := by
    gcongr
    exact_mod_cast Nat.le_succ i
  have hx1 : ((i + 1 : ℕ) : ℚ) / ((max 1 (total - 1) : ℕ) : ℚ) ≤ 1 := by
    rw [div_le_one hDpos]
    have : i + 1 ≤ (max 1 (total - 1) : ℕ) := by omega
    exact_mod_cast this
  have he := ease_in_out_quad_mono hx0 hxle hx1
  apply round1_mono
  nlinarith [mul_le_mul_of_nonneg_left he (sub_nonneg.mpr hnm)]

/-- Every eased orbit distance stays in `[1, 195]` as long as both the far
and near targets do. -/
theorem dist_for_orbit_idx_bounds {m n : ℚ} {i total : ℕ} (hit : i < total)
    (hm1 : 1 ≤ m) (hm2 : m ≤ 195) (hn1 : 1 ≤ n) (hn2 : n ≤ 195) :
    1 ≤ dist_for_orbit_idx m n i total ∧ dist_for_orbit_idx m n i total ≤ 195 := by
  unfold dist_for_orbit_idx
  have hDpos : (0 : ℚ) < ((max 1 (total - 1) : ℕ) : ℚ) := by
    have : 0 < (max 1 (total - 1) : ℕ) := lt_of_lt_of_le Nat.one_pos (le_max_left _ _)
    exact_mod_cast this
  have hx0 : (0 : ℚ) ≤ (i : ℚ) / ((max 1 (total - 1) : ℕ) : ℚ) :=
    div_nonneg (by positivity) hDpos.le
  have hx1 : (i : ℚ) / ((max 1 (total - 1) : ℕ) : ℚ) ≤ 1 := by
    rw [div_le_one hDpos]
    have : i ≤ (max 1 (total - 1) : ℕ) := by omega
    exact_mod_cast this
  have he0 := ease_in_out_quad_nonneg hx0 hx1
  have he1 := ease_in_out_quad_le_one hx0 hx1
  constructor
  · calc (1 : ℚ) = round1 1 := round1_one.symm
      _ ≤ _ := round1_mono (by nlinarith)
  · calc _ ≤ round1 195 := round1_mono (by nlinarith)
      _ = 195 := round1_195

/-- The hero pose's heading wraps a full `sign * 360°` and therefore equals
the normalized start heading. -/
theorem hero_heading_eq (s : ℚ) (clockwise : Bool) (count : ℤ) :
    fmod360 (s + heading_step_of clockwise count * (orbit_steps_of count : ℚ)) =
      fmod360 s := by
  have hos : ((orbit_steps_of count : ℕ) : ℚ) ≠ 0 := by
    have := orbit_steps_of_pos count
    exact_mod_cast this.ne'
  unfold heading_step_of step_sign_of
  cases clockwise with
  | false =>
      rw [show s + (if (false : Bool) then (1:ℚ) else -1) *
          (360 / (orbit_steps_of count : ℚ)) * (orbit_steps_of count : ℚ)
          = s + 360 * ((-1 : ℤ) : ℚ) from by
        field_simp
        ring]
      exact fmod360_add_mul_360 s (-1)
  | true =>
      rw [show s + (if (true : Bool) then (1:ℚ) else -1) *
          (360 / (orbit_steps_of count : ℚ)) * (orbit_steps_of count : ℚ)
          = s + 360 * ((1 : ℤ) : ℚ) from by
        field_simp]
      exact fmod360_add_mul_360 s 1

theorem make_drone_route_getElem_hero (lat lon : ℚ) (address : String)
    (use_elevation : Bool) (elev_response : Option ℚ) (default_alt : ℚ)
    (max_distance near_distance_min start_heading_deg : ℚ)
    (clockwise : Bool) (count : ℤ) :
    (make_drone_route lat lon address use_elevation elev_response default_alt
      max_distance near_distance_min start_heading_deg clockwise
      count)[orbit_steps_of count + 1]? =
      some { core := hero_core max_distance near_distance_min start_heading_deg
               clockwise count
             url := urlOf address lat lon
               (a_target_of use_elevation elev_response default_alt)
               (hero_core max_distance near_distance_min start_heading_deg
                 clockwise count) } := by
  unfold make_drone_route route_core
  rw [List.getElem?_map, List.getElem?_append_right (by simp [Nat.add_comm])]
  simp

/-! ### Claim theorems -/

/-- C3: `nearDistance` equals `max(nearDistanceMin, maxDistance - 70.0)` (with
`maxDistance` clamped to `[1, 195]`) exactly, for every `maxDistance` and
`nearDistanceMin`; and in the scenario `maxDistance = 195`,
`nearDistanceMin = 90`, `count = 10`, the route has pose 1 distance `195.0`,
pose 10 distance `125.0`, and exactly 8 orbit poses (the 8 middle poses,
tilt 67). -/
theorem C3_near_distance_and_scenario :
    (∀ max_distance near_distance_min : ℚ,
      near_d_of max_distance near_distance_min =
        nearDistance_spec (clamp max_distance 1 195) near_distance_min) ∧
    (make_drone_route 0 0 "a" false none 30 195 90 0 true 10).length = 10 ∧
    (make_drone_route 0 0 "a" false none 30 195 90 0 true 10)[0]?.map
      (fun p => p.core.d) = some 195 ∧
    (make_drone_route 0 0 "a" false none 30 195 90 0 true 10)[9]?.map
      (fun p => p.core.d) = some 125 ∧
    orbit_steps_of 10 = 8 ∧
    (make_drone_route 0 0 "a" false none 30 195 90 0 true 10).map
      (fun p => p.core.t) = [55, 67, 67, 67, 67, 67, 67, 67, 67, 72] := by
  refine ⟨fun max_distance near_distance_min => rfl, by decide, ?_, ?_, rfl, ?_⟩
  · norm_num [make_drone_route, route_core, establishing_core, orbit_core, hero_core,
      show orbit_steps_of 10 = 8 from rfl, List.range_succ, dist_for_orbit_idx,
      ease_in_out_quad, round1, roundHalfEven, max_d_of, near_d_of, clamp]
  · norm_num [make_drone_route, route_core, establishing_core, orbit_core, hero_core,
      show orbit_steps_of 10 = 8 from rfl, List.range_succ, dist_for_orbit_idx,
      ease_in_out_quad, round1, roundHalfEven, max_d_of, near_d_of, clamp]
  · norm_num [make_drone_route, route_core, establishing_core, orbit_core, hero_core,
      show orbit_steps_of 10 = 8 from rfl, List.range_succ]

/-- C6: for every `count` (including `count < 3`) the route has exactly
`max(3, count)` poses, the `step` fields are the contiguous 1-based sequence
`1..N`, pose 1 is the establishing pose with tilt 55, and pose `N` is the
hero pose with tilt 72. -/
theorem C6_length_steps_tilts (lat lon : ℚ) (address : String)
    (use_elevation : Bool) (elev_response : Option ℚ) (default_alt : ℚ)
    (max_distance near_distance_min start_heading_deg : ℚ)
    (clockwise : Bool) (count : ℤ) :
    (((make_drone_route lat lon address use_elevation elev_response default_alt
        max_distance near_distance_min start_heading_deg clockwise count).length : ℤ)
      = max 3 count) ∧
    (∀ j : ℕ, j < (make_drone_route lat lon address use_elevation elev_response
        default_alt max_distance near_distance_min start_heading_deg clockwise
        count).length →
      (make_drone_route lat lon address use_elevation elev_response default_alt
        max_distance near_distance_min start_heading_deg clockwise count)[j]?.map
        (fun p => p.core.step) = some ((j : ℤ) + 1)) ∧
    (make_drone_route lat lon address use_elevation elev_response default_alt
      max_distance near_distance_min start_heading_deg clockwise count).head?.map
      (fun p => p.core.t) = some 55 ∧
    (make_drone_route lat lon address use_elevation elev_response default_alt
      max_distance near_distance_min start_heading_deg clockwise count).getLast?.map
      (fun p => p.core.t) = some 72 := by
  have hlen := make_drone_route_length lat lon address use_elevation elev_response
    default_alt max_distance near_distance_min start_heading_deg clockwise count
  have hN := N_of_eq_orbit_steps_add_two count
  refine ⟨?_, ?_, ?_, ?_⟩
  · rw [hlen]
    have : N_of count = max 3 count := rfl
    push_cast
    omega
  · intro j hj
    rw [hlen] at hj
    match j with
    | 0 =>
        rw [make_drone_route_getElem_zero]
        rfl
    | j + 1 =>
        rcases Nat.lt_or_ge j (orbit_steps_of count) with hjo | hjo
        · rw [make_drone_route_getElem_orbit lat lon address use_elevation
            elev_response default_alt max_distance near_distance_min
            start_heading_deg clockwise count hjo]
          simp [orbit_core]
          ring
        · have hje : j = orbit_steps_of count := by omega
          subst hje
          rw [make_drone_route_getElem_hero]
          simp [hero_core]
          omega
  · rw [List.head?_eq_getElem?, make_drone_route_getElem_zero]
    rfl
  · rw [make_drone_route_getLast]
    rfl

/-- C6 witness: in the default 10-pose route, pose index 0 carries step 1. -/
theorem C6_length_steps_tilts_witness :
    (make_drone_route 0 0 "a" false none 30 195 90 0 true 10)[0]?.map
      (fun p => p.core.step) = some 1 :=
  (C6_length_steps_tilts 0 0 "a" false none 30 195 90 0 true 10).2.1 0 (by decide)

/-- C7: the planner is deterministic: two calls with identical arguments
(including an identical resolved elevation response, hence identical
target altitude) produce structurally identical routes. -/
theorem C7_deterministic (lat₁ lon₁ : ℚ) (address₁ : String)
    (use_elevation₁ : Bool) (elev_response₁ : Option ℚ) (default_alt₁ : ℚ)
    (max_distance₁ near_distance_min₁ start_heading_deg₁ : ℚ)
    (clockwise₁ : Bool) (count₁ : ℤ)
    (lat₂ lon₂ : ℚ) (address₂ : String)
    (use_elevation₂ : Bool) (elev_response₂ : Option ℚ) (default_alt₂ : ℚ)
    (max_distance₂ near_distance_min₂ start_heading_deg₂ : ℚ)
    (clockwise₂ : Bool) (count₂ : ℤ)
    (h1 : lat₁ = lat₂) (h2 : lon₁ = lon₂) (h3 : address₁ = address₂)
    (h4 : use_elevation₁ = use_elevation₂) (h5 : elev_response₁ = elev_response₂)
    (h6 : default_alt₁ = default_alt₂) (h7 : max_distance₁ = max_distance₂)
    (h8 : near_distance_min₁ = near_distance_min₂)
    (h9 : start_heading_deg₁ = start_heading_deg₂)
    (h10 : clockwise₁ = clockwise₂) (h11 : count₁ = count₂) :
    a_target_of use_elevation₁ elev_response₁ default_alt₁ =
      a_target_of use_elevation₂ elev_response₂ default_alt₂ ∧
    make_drone_route lat₁ lon₁ address₁ use_elevation₁ elev_response₁ default_alt₁
      max_distance₁ near_distance_min₁ start_heading_deg₁ clockwise₁ count₁ =
    make_drone_route lat₂ lon₂ address₂ use_elevation₂ elev_response₂ default_alt₂
      max_distance₂ near_distance_min₂ start_heading_deg₂ clockwise₂ count₂ := by
  subst_vars
  exact ⟨rfl, rfl⟩

/-- C7 witness: the determinism theorem applied at one concrete argument
tuple. -/
theorem C7_deterministic_witness :
    a_target_of true (some 12) 30 = a_target_of true (some 12) 30 ∧
    make_drone_route 0 0 "a" true (some 12) 30 195 90 0 true 10 =
      make_drone_route 0 0 "a" true (some 12) 30 195 90 0 true 10 :=
  C7_deterministic 0 0 "a" true (some 12) 30 195 90 0 true 10
    0 0 "a" true (some 12) 30 195 90 0 true 10
    rfl rfl rfl rfl rfl rfl rfl rfl rfl rfl rfl

/-- C8: when geocoding returns no result, the run aborts with the typed
geocoding failure identifying the condition, and no route is planned (the
plan step returns the error, not a pose list). -/
theorem C8_geocoding_failure (address : String)
    (use_elevation : Bool) (elev_response : Option ℚ) (default_alt : ℚ)
    (max_distance near_distance_min start_heading_deg : ℚ)
    (clockwise : Bool) (count : ℤ) :
    geocode_nominatim [] = Except.error (PredictError.geocodingFailed
      "Geocoding failed: no results from Nominatim.") ∧
    predict_plan [] address use_elevation elev_response default_alt
      max_distance near_distance_min start_heading_deg clockwise count =
      Except.error (PredictError.geocodingFailed
        "Geocoding failed: no results from Nominatim.") :=
  ⟨rfl, rfl⟩

/-- C9: for every outcome of the best-effort overlay dismissal and the
bounded canvas wait, and for every settle-wait duration, the capture
sequence ends with the SCREENSHOT step and returns the screenshot path for
the pose. -/
theorem C9_capture_always_screenshots
    (overlay_dismiss_raises canvas_detected : Bool) (url : String)
    (w h wait_seconds : ℤ) (index : ℕ) :
    (open_and_capture overlay_dismiss_raises canvas_detected url w h
      wait_seconds index).1.getLast? =
      some (CaptureStep.screenshot (view_full_path index)) ∧
    CaptureStep.screenshot (view_full_path index) ∈
      (open_and_capture overlay_dismiss_raises canvas_detected url w h
        wait_seconds index).1 ∧
    (open_and_capture overlay_dismiss_raises canvas_detected url w h
      wait_seconds index).2 = view_full_path index := by
  refine ⟨?_, ?_, rfl⟩
  · exact List.getLast?_concat _
  · simp [open_and_capture]

/-- C10: for `count ≤ 3` the route has exactly one orbit pose, and its
distance is the clamped `maxDistance` rounded to 0.1, identical to the
establishing pose's distance (the guarded divisor `max(1, total - 1)` makes
the single step's progress 0). -/
theorem C10_single_orbit_pose (lat lon : ℚ) (address : String)
    (use_elevation : Bool) (elev_response : Option ℚ) (default_alt : ℚ)
    (max_distance near_distance_min start_heading_deg : ℚ)
    (clockwise : Bool) (count : ℤ) (hcount : count ≤ 3) :
    orbit_steps_of count = 1 ∧
    (make_drone_route lat lon address use_elevation elev_response default_alt
      max_distance near_distance_min start_heading_deg clockwise count).length = 3 ∧
    (make_drone_route lat lon address use_elevation elev_response default_alt
      max_distance near_distance_min start_heading_deg clockwise count)[1]?.map
      (fun p => p.core.d) = some (round1 (max_d_of max_distance)) ∧
    (make_drone_route lat lon address use_elevation elev_response default_alt
      max_distance near_distance_min start_heading_deg clockwise count)[1]?.map
      (fun p => p.core.d) =
    (make_drone_route lat lon address use_elevation elev_response default_alt
      max_distance near_distance_min start_heading_deg clockwise count)[0]?.map
      (fun p => p.core.d) := by
  have hN : N_of count = 3 := max_eq_left hcount
  have hos : orbit_steps_of count = 1 := by
    unfold orbit_steps_of
    rw [hN]
    rfl
  have hd1 : (make_drone_route lat lon address use_elevation elev_response
      default_alt max_distance near_distance_min start_heading_deg clockwise
      count)[1]?.map (fun p => p.core.d) = some (round1 (max_d_of max_distance)) := by
    have h01 : (0 : ℕ) < orbit_steps_of count := by omega
    have := make_drone_route_getElem_orbit lat lon address use_elevation
      elev_response default_alt max_distance near_distance_min start_heading_deg
      clockwise count h01
    rw [show (0 : ℕ) + 1 = 1 from rfl] at this
    rw [this]
    simp [orbit_core, hos, dist_for_orbit_idx_zero_one]
  refine ⟨hos, ?_, hd1, ?_⟩
  · rw [make_drone_route_length, hos]
  · rw [hd1, make_drone_route_getElem_zero]
    rfl

/-- C10 witness: the single-orbit-pose property at `count = 3` with the
default shaping parameters. -/
theorem C10_single_orbit_pose_witness :
    orbit_steps_of 3 = 1 ∧
    (make_drone_route 0 0 "a" false none 30 195 90 0 true 3).length = 3 ∧
    (make_drone_route 0 0 "a" false none 30 195 90 0 true 3)[1]?.map
      (fun p => p.core.d) = some (round1 (max_d_of 195)) ∧
    (make_drone_route 0 0 "a" false none 30 195 90 0 true 3)[1]?.map
      (fun p => p.core.d) =
    (make_drone_route 0 0 "a" false none 30 195 90 0 true 3)[0]?.map
      (fun p => p.core.d) :=
  C10_single_orbit_pose 0 0 "a" false none 30 195 90 0 true 3 (by norm_num)

/-- C1 counterexample: with `count = 4`, `startHeading = 0`, clockwise, the
hero pose (k = N = 4) has heading 0, while the claim's formula
`(startHeading + sign * (360 / (N - 2)) * (k - 1)) mod 360` gives 180. -/
theorem C1_counterexample :
    (make_drone_route 0 0 "a" false none 30 195 90 0 true 4).getLast?.map
      (fun p => p.core.h) = some 0 ∧
    fmod360 (0 + 1 * (360 / ((4 : ℚ) - 2)) * ((4 : ℚ) - 1)) = 180 ∧
    (0 : ℚ) < 180 := by
  refine ⟨?_, ?_, by norm_num⟩
  · rw [make_drone_route_getLast]
    norm_num [hero_core, heading_step_of, step_sign_of, fmod360,
      show orbit_steps_of 4 = 2 from rfl]
  · norm_num [fmod360]

/-- C1 (amended): the establishing pose and the orbit poses k = 2..N-1 have
headings `startHeading mod 360` and
`(startHeading + sign * (360 / (N - 2)) * (k - 1)) mod 360` (with
`N - 2 = orbitSteps` and `k - 1 = i + 1` for 0-based orbit index `i`); the
hero pose repeats `startHeading mod 360`, the orbit having wrapped a full
`sign * 360`; and every heading in the route lies in `[0, 360)`. -/
theorem C1_heading_amended (lat lon : ℚ) (address : String)
    (use_elevation : Bool) (elev_response : Option ℚ) (default_alt : ℚ)
    (max_distance near_distance_min start_heading_deg : ℚ)
    (clockwise : Bool) (count : ℤ) :
    ((make_drone_route lat lon address use_elevation elev_response default_alt
      max_distance near_distance_min start_heading_deg clockwise count).map
        (fun p => p.core.h) =
      (fmod360 start_heading_deg ::
        (List.range (orbit_steps_of count)).map (fun i : ℕ =>
          fmod360 (start_heading_deg +
            step_sign_of clockwise * (360 / (orbit_steps_of count : ℚ)) *
              ((i : ℚ) + 1))))
        ++ [fmod360 start_heading_deg]) ∧
    (∀ p, p ∈ make_drone_route lat lon address use_elevation elev_response
        default_alt max_distance near_distance_min start_heading_deg clockwise
        count → 0 ≤ p.core.h ∧ p.core.h < 360) := by
  constructor
  · unfold make_drone_route route_core
    simp only [List.map_append, List.map_cons, List.map_map, List.map_singleton]
    congr 1
    exact congrArg (fun q => [q]) (hero_heading_eq start_heading_deg clockwise count)
  · intro p hp
    unfold make_drone_route route_core at hp
    rw [List.mem_map] at hp
    obtain ⟨c, hc, rfl⟩ := hp
    rw [List.mem_append] at hc
    rcases hc with hc | hc
    · rw [List.mem_cons] at hc
      rcases hc with rfl | hc
      · exact ⟨fmod360_nonneg _, fmod360_lt _⟩
      · rw [List.mem_map] at hc
        obtain ⟨i, _, rfl⟩ := hc
        exact ⟨fmod360_nonneg _, fmod360_lt _⟩
    · rw [List.mem_singleton] at hc
      subst hc
      exact ⟨fmod360_nonneg _, fmod360_lt _⟩

/-- C1 witness: the normalization bound instantiated at the establishing
pose of the default 10-pose route. -/
theorem C1_heading_amended_witness :
    0 ≤ fmod360 0 ∧ fmod360 0 < 360 :=
  (C1_heading_amended 0 0 "a" false none 30 195 90 0 true 10).2
    { core := establishing_core 195 0
      url := urlOf "a" 0 0 (a_target_of false none 30) (establishing_core 195 0) }
    (List.mem_map_of_mem _ (List.mem_append_left _ (List.mem_cons_self _ _)))

/-- C2: whenever the clamped `maxDistance` strictly exceeds `nearDistance`,
consecutive orbit poses (route positions `i + 1` and `i + 2` for 0-based
orbit index `i`) carry the eased distances `dist_for_orbit_idx` and they are
monotone non-increasing in generation order. -/
theorem C2_orbit_distance_monotone (lat lon : ℚ) (address : String)
    (use_elevation : Bool) (elev_response : Option ℚ) (default_alt : ℚ)
    (max_distance near_distance_min start_heading_deg : ℚ)
    (clockwise : Bool) (count : ℤ)
    (hnear : near_d_of max_distance near_distance_min < max_d_of max_distance)
    (i : ℕ) (hi : i + 1 < orbit_steps_of count) :
    (make_drone_route lat lon address use_elevation elev_response default_alt
      max_distance near_distance_min start_heading_deg clockwise count)[i + 1]?.map
      (fun p => p.core.d) =
      some (dist_for_orbit_idx (max_d_of max_distance)
        (near_d_of max_distance near_distance_min) i (orbit_steps_of count)) ∧
    (make_drone_route lat lon address use_elevation elev_response default_alt
      max_distance near_distance_min start_heading_deg clockwise
      count)[i + 1 + 1]?.map (fun p => p.core.d) =
      some (dist_for_orbit_idx (max_d_of max_distance)
        (near_d_of max_distance near_distance_min) (i + 1) (orbit_steps_of count)) ∧
    dist_for_orbit_idx (max_d_of max_distance)
        (near_d_of max_distance near_distance_min) (i + 1) (orbit_steps_of count) ≤
      dist_for_orbit_idx (max_d_of max_distance)
        (near_d_of max_distance near_distance_min) i (orbit_steps_of count) := by
  refine ⟨?_, ?_, dist_for_orbit_idx_step_le hnear.le hi⟩
  · rw [make_drone_route_getElem_orbit lat lon address use_elevation elev_response
      default_alt max_distance near_distance_min start_heading_deg clockwise count
      (by omega : i < orbit_steps_of count)]
    rfl
  · rw [make_drone_route_getElem_orbit lat lon address use_elevation elev_response
      default_alt max_distance near_distance_min start_heading_deg clockwise count
      hi]
    rfl

/-- C2 witness: the first two orbit poses of the default 10-pose route. -/
theorem C2_orbit_distance_monotone_witness :
    (make_drone_route 0 0 "a" false none 30 195 90 0 true 10)[1]?.map
      (fun p => p.core.d) =
      some (dist_for_orbit_idx (max_d_of 195) (near_d_of 195 90) 0
        (orbit_steps_of 10)) ∧
    (make_drone_route 0 0 "a" false none 30 195 90 0 true 10)[2]?.map
      (fun p => p.core.d) =
      some (dist_for_orbit_idx (max_d_of 195) (near_d_of 195 90) 1
        (orbit_steps_of 10)) ∧
    dist_for_orbit_idx (max_d_of 195) (near_d_of 195 90) 1 (orbit_steps_of 10) ≤
      dist_for_orbit_idx (max_d_of 195) (near_d_of 195 90) 0 (orbit_steps_of 10) :=
  C2_orbit_distance_monotone 0 0 "a" false none 30 195 90 0 true 10
    (by norm_num [near_d_of, max_d_of, clamp]) 0 (by decide)

/-- C4 counterexample: in the default 10-pose route the orbit FOV sequence
is `35, 38, 35, 38, ...` — every odd-indexed orbit step has FOV 38.0 and the
value 32.0 never occurs, so the odd steps do not alternate between 38.0 and
32.0. -/
theorem C4_counterexample :
    (make_drone_route 0 0 "a" false none 30 195 90 0 true 10).map
      (fun p => p.core.y) = [35, 35, 38, 35, 38, 35, 38, 35, 38, 35] ∧
    ((make_drone_route 0 0 "a" false none 30 195 90 0 true 10).map
      (fun p => p.core.y)).count 32 = 0 := by
  have hy : (make_drone_route 0 0 "a" false none 30 195 90 0 true 10).map
      (fun p => p.core.y) = [35, 35, 38, 35, 38, 35, 38, 35, 38, 35] := by
    norm_num [make_drone_route, route_core, establishing_core, orbit_core,
      hero_core, show orbit_steps_of 10 = 8 from rfl, List.range_succ]
  refine ⟨hy, ?_⟩
  rw [hy]
  norm_num [List.count_cons, List.count_nil]

/-- C4 (amended): every odd-indexed orbit step has field of view exactly
38.0 (the +3° offset; the -3° offset 32.0 is never produced), every
even-indexed orbit step has field of view exactly 35.0, and every orbit
pose has tilt 67. -/
theorem C4_fov_amended (lat lon : ℚ) (address : String)
    (use_elevation : Bool) (elev_response : Option ℚ) (default_alt : ℚ)
    (max_distance near_distance_min start_heading_deg : ℚ)
    (clockwise : Bool) (count : ℤ) (i : ℕ) (hi : i < orbit_steps_of count) :
    (make_drone_route lat lon address use_elevation elev_response default_alt
      max_distance near_distance_min start_heading_deg clockwise count)[i + 1]?.map
      (fun p => p.core.y) = some (if i % 2 = 0 then 35 else 38) ∧
    (make_drone_route lat lon address use_elevation elev_response default_alt
      max_distance near_distance_min start_heading_deg clockwise count)[i + 1]?.map
      (fun p => p.core.t) = some 67 := by
  rw [make_drone_route_getElem_orbit lat lon address use_elevation elev_response
    default_alt max_distance near_distance_min start_heading_deg clockwise count hi]
  refine ⟨?_, rfl⟩
  rcases Nat.mod_two_eq_zero_or_one i with hpar | hpar <;>
    norm_num [orbit_core, hpar]

/-- C4 witness: orbit index 1 (an odd step) of the default route has FOV 38
and tilt 67. -/
theorem C4_fov_amended_witness :
    (make_drone_route 0 0 "a" false none 30 195 90 0 true 10)[2]?.map
      (fun p => p.core.y) = some 38 ∧
    (make_drone_route 0 0 "a" false none 30 195 90 0 true 10)[2]?.map
      (fun p => p.core.t) = some 67 :=
  C4_fov_amended 0 0 "a" false none 30 195 90 0 true 10 1 (by decide)

/-- C5 counterexample: with `maxDistance = 1` and `nearDistanceMin = 0` the
hero pose's distance is 0.0, which lies below the claimed lower bound 1.0
(the caller-supplied `nearDistanceMin` is never clamped). -/
theorem C5_counterexample :
    (make_drone_route 0 0 "a" false none 30 1 0 0 true 3).getLast?.map
      (fun p => p.core.d) = some 0 ∧
    (0 : ℚ) < 1 := by
  refine ⟨?_, by norm_num⟩
  rw [make_drone_route_getLast]
  norm_num [hero_core, near_d_of, max_d_of, clamp, round1, roundHalfEven]

/-- C5 (amended): if the caller-supplied `nearDistanceMin` itself lies in
`[1, 195]`, then for every `maxDistance` the distance of every pose in the
route (establishing, orbit, and hero) lies within `[1.0, 195.0]`. -/
theorem C5_distance_bounds_amended (lat lon : ℚ) (address : String)
    (use_elevation : Bool) (elev_response : Option ℚ) (default_alt : ℚ)
    (max_distance near_distance_min start_heading_deg : ℚ)
    (clockwise : Bool) (count : ℤ)
    (hmin1 : 1 ≤ near_distance_min) (hmin2 : near_distance_min ≤ 195) :
    ∀ p, p ∈ make_drone_route lat lon address use_elevation elev_response
      default_alt max_distance near_distance_min start_heading_deg clockwise
      count → 1 ≤ p.core.d ∧ p.core.d ≤ 195 := by
  have hmd1 := max_d_of_ge_one max_distance
  have hmd2 := max_d_of_le max_distance
  have hnd1 : 1 ≤ near_d_of max_distance near_distance_min :=
    le_trans hmin1 (le_max_left _ _)
  have hnd2 : near_d_of max_distance near_distance_min ≤ 195 :=
    max_le hmin2 (by linarith)
  intro p hp
  unfold make_drone_route route_core at hp
  rw [List.mem_map] at hp
  obtain ⟨c, hc, rfl⟩ := hp
  rw [List.mem_append] at hc
  rcases hc with hc | hc
  · rw [List.mem_cons] at hc
    rcases hc with rfl | hc
    · show 1 ≤ round1 (max_d_of max_distance) ∧ round1 (max_d_of max_distance) ≤ 195
      constructor
      · calc (1 : ℚ) = round1 1 := round1_one.symm
          _ ≤ _ := round1_mono hmd1
      · calc round1 (max_d_of max_distance) ≤ round1 195 := round1_mono hmd2
          _ = 195 := round1_195
    · rw [List.mem_map] at hc
      obtain ⟨i, hi, rfl⟩ := hc
      exact dist_for_orbit_idx_bounds (List.mem_range.mp hi) hmd1 hmd2 hnd1 hnd2
  · rw [List.mem_singleton] at hc
    subst hc
    show 1 ≤ round1 (near_d_of max_distance near_distance_min) ∧
      round1 (near_d_of max_distance near_distance_min) ≤ 195
    constructor
    · calc (1 : ℚ) = round1 1 := round1_one.symm
        _ ≤ _ := round1_mono hnd1
    · calc round1 (near_d_of max_distance near_distance_min) ≤ round1 195 :=
          round1_mono hnd2
        _ = 195 := round1_195

/-- C5 witness: the amended bound instantiated at the establishing pose of
the default route (`nearDistanceMin = 90` lies in `[1, 195]`). -/
theorem C5_distance_bounds_amended_witness :
    1 ≤ round1 (max_d_of 195) ∧ round1 (max_d_of 195) ≤ 195 :=
  C5_distance_bounds_amended 0 0 "a" false none 30 195 90 0 true 10
    (by norm_num) (by norm_num)
    { core := establishing_core 195 0
      url := urlOf "a" 0 0 (a_target_of false none 30) (establishing_core 195 0) }
    (List.mem_map_of_mem _ (List.mem_append_left _ (List.mem_cons_self _ _)))

end Earthshot
